import Mathlib

/-!
Shallow embedding of `src/llvmcalltest.cpp` from the Julia repository.

The C++ file exports a single helper:

    JL_DLLEXPORT llvm::Function *MakeIdentityFunction(llvm::PointerType *AnyTy) {
        Type *TrackedTy = PointerType::get(AnyTy->getElementType(), AddressSpace::Tracked);
        Module *M = new llvm::Module("shadow", jl_LLVMContext);
        Function *F = Function::Create(
            FunctionType::get(TrackedTy, {TrackedTy}, false),
            llvm::GlobalValue::ExternalLinkage,
            "identity",
            M);
        IRBuilder<> Builder(BasicBlock::Create(jl_LLVMContext, "top", F));
        Builder.CreateRet(&*F->arg_begin());
        return F;
    }

We embed the fragment of the LLVM object model the helper touches (first-class
types, function types, basic blocks, ret instructions, functions, modules) and
an explicit `CompilerState` that models the process-wide pieces of state the
call interacts with: whether the global `jl_LLVMContext` is initialized, a heap
of externally owned type descriptors (the `PointerType *AnyTy` argument is a
handle into it, `Option.none` modelling a null pointer), a module allocator
(fresh module identities), and a global module registry.  A run that would
dereference a null descriptor, read a dangling handle, assert on a non-pointer
type, or touch an uninitialized context is modelled as `Option.none` : a fatal
abort or undefined behavior, never a recoverable error value.
-/

namespace LLVMCallTest

/-- First-class LLVM IR types as used by the helper: integer types and pointer
types carrying a pointee type and an address-space number. -/
inductive LLVMType where
  | int (bits : Nat)
  | pointer (pointee : LLVMType) (addrSpace : Nat)
deriving DecidableEq

namespace AddressSpace

/-- Modelled from the spec: `AddressSpace::Tracked` comes from
`codegen_shared.h`, which is not among the provided sources.  The spec describes
it as the address-space number reserved for garbage-collection-tracked
references; the value 10 is the one the Julia runtime uses, and no result below
depends on the concrete number. -/
def Tracked : Nat := 10

end AddressSpace

/-- `PointerType::get(pointee, addrSpace)`. -/
def pointerTypeGet (pointee : LLVMType) (addrSpace : Nat) : LLVMType :=
  LLVMType.pointer pointee addrSpace

/-- `PointerType::getElementType()`: defined on pointer types only; applying it
through a descriptor that is not a pointer type is a type-confusion error in
the C++ (modelled by `none`). -/
def getElementType : LLVMType → Option LLVMType
  | LLVMType.pointer pointee _ => some pointee
  | LLVMType.int _ => none

/-- An LLVM function type: return type, parameter types, varargs flag
(`FunctionType::get`). -/
structure FunctionType where
  retType : LLVMType
  paramTypes : List LLVMType
  isVarArg : Bool
deriving DecidableEq

/-- `FunctionType::get(ret, params, isVarArg)`. -/
def functionTypeGet (ret : LLVMType) (params : List LLVMType) (isVarArg : Bool) :
    FunctionType :=
  FunctionType.mk ret params isVarArg

/-- The only SSA values the helper manipulates: function arguments, by index
(`F->arg_begin()` is argument 0). -/
inductive Value where
  | argument (idx : Nat)
deriving DecidableEq

/-- The only instruction the helper emits: `ret <operand>`. -/
inductive Instruction where
  | ret (operand : Value)
deriving DecidableEq

/-- A basic block: a label and its instruction list. -/
structure BasicBlock where
  name : String
  insts : List Instruction
deriving DecidableEq

/-- The linkage kinds relevant here (`GlobalValue::ExternalLinkage` is the one
the helper uses). -/
inductive Linkage where
  | externalLinkage
  | internalLinkage
deriving DecidableEq

/-- An LLVM function object: name, linkage, type, and list of basic blocks. -/
structure Function where
  name : String
  linkage : Linkage
  fnType : FunctionType
  blocks : List BasicBlock
deriving DecidableEq

/-- An LLVM module: an allocation identity (distinguishing separately allocated
modules), its name, and the functions it owns. -/
structure Module where
  moduleId : Nat
  name : String
  functions : List Function
deriving DecidableEq

/-- The process-wide state the helper interacts with:
`ctxInitialized` models whether the global `jl_LLVMContext` exists;
`typeHeap` is the heap of caller-owned type descriptors (`AnyTy` is a handle
into it); `nextModuleId` is the allocator for fresh module identities;
`moduleRegistry` models any global registry of modules. -/
structure CompilerState where
  ctxInitialized : Bool
  typeHeap : List LLVMType
  nextModuleId : Nat
  moduleRegistry : List Nat
deriving DecidableEq

/-- `Function::Create(ty, linkage, name, M)`: a fresh function with no body
yet. -/
def functionCreate (ty : FunctionType) (linkage : Linkage) (name : String) :
    Function :=
  Function.mk name linkage ty []

/-- `BasicBlock::Create(ctx, name, F)`: append a fresh empty block to `F`. -/
def basicBlockCreate (name : String) (F : Function) : Function :=
  Function.mk F.name F.linkage F.fnType (F.blocks ++ [BasicBlock.mk name []])

/-- `IRBuilder` positioned at the most recently created block: append an
instruction to the last block of `F` (a no-op on a bodiless function). -/
def appendInst (i : Instruction) (F : Function) : Function :=
  match F.blocks.getLast? with
  | none => F
  | some bb =>
      Function.mk F.name F.linkage F.fnType
        (F.blocks.dropLast ++ [BasicBlock.mk bb.name (bb.insts ++ [i])])

/-- `&*F->arg_begin()`: the function's first argument. -/
def argBegin (_F : Function) : Value :=
  Value.argument 0

/-- What `MakeIdentityFunction` hands back: the returned `Function *` together
with the module the call allocated as a side effect (in the C++ the module is
reachable from the function as its parent). -/
structure MIFResult where
  retFn : Function
  shadowModule : Module
deriving DecidableEq

/-- Embedding of `MakeIdentityFunction`.  `AnyTy` is a possibly-null handle
into the descriptor heap.  The three `none` early results model, in source
order, a null-pointer dereference at `AnyTy->getElementType()`, a dangling
handle, type confusion on a non-pointer descriptor, and the use of an
uninitialized `jl_LLVMContext` — all fatal or undefined in the C++, never a
recoverable error value. -/
def MakeIdentityFunction (AnyTy : Option Nat) (s : CompilerState) :
    Option (MIFResult × CompilerState) :=
  match AnyTy with
  | none => none
  | some h =>
    match s.typeHeap[h]? with
    | none => none
    | some ty =>
      match getElementType ty with
      | none => none
      | some elemTy =>
        match s.ctxInitialized with
        | false => none
        | true =>
          let TrackedTy := pointerTypeGet elemTy AddressSpace.Tracked
          let M0 := Module.mk s.nextModuleId "shadow" []
          let F0 := functionCreate
            (functionTypeGet TrackedTy [TrackedTy] false)
            Linkage.externalLinkage "identity"
          let F1 := basicBlockCreate "top" F0
          let F2 := appendInst (Instruction.ret (argBegin F1)) F1
          let M := Module.mk M0.moduleId M0.name [F2]
          some (MIFResult.mk F2 M,
            CompilerState.mk s.ctxInitialized s.typeHeap (s.nextModuleId + 1)
              s.moduleRegistry)

/-- The function object a successful call produces, as a function of the
descriptor's pointee type `T`. -/
def identityFnFor (T : LLVMType) : Function :=
  Function.mk "identity" Linkage.externalLinkage
    (FunctionType.mk (pointerTypeGet T AddressSpace.Tracked)
      [pointerTypeGet T AddressSpace.Tracked] false)
    [BasicBlock.mk "top" [Instruction.ret (Value.argument 0)]]

/-- The module a successful call allocates, given the pointee type and the
fresh identity the allocator hands out. -/
def shadowModuleFor (T : LLVMType) (id : Nat) : Module :=
  Module.mk id "shadow" [identityFnFor T]

/-- Characterization of a successful run: it happens exactly when the handle
dereferences to a pointer type and the context is initialized, and then the
result and post-state are fully determined. -/
theorem makeIdentity_eq_some (h : Nat) (s : CompilerState) (r : MIFResult)
    (s' : CompilerState)
    (hrun : MakeIdentityFunction (some h) s = some (r, s')) :
    ∃ T a, s.typeHeap[h]? = some (LLVMType.pointer T a) ∧
      s.ctxInitialized = true ∧
      r = MIFResult.mk (identityFnFor T) (shadowModuleFor T s.nextModuleId) ∧
      s' = CompilerState.mk s.ctxInitialized s.typeHeap (s.nextModuleId + 1)
        s.moduleRegistry := by
  unfold MakeIdentityFunction at hrun
  cases hty : s.typeHeap[h]? with
  | none => simp [hty] at hrun
  | some ty =>
    cases ty with
    | int b => simp [hty, getElementType] at hrun
    | pointer T a =>
      cases hctx : s.ctxInitialized with
      | false => simp [hty, getElementType, hctx] at hrun
      | true =>
        simp only [hty, getElementType, hctx] at hrun
        rw [Option.some.injEq, Prod.mk.injEq] at hrun
        obtain ⟨h1, h2⟩ := hrun
        refine ⟨T, a, rfl, rfl, ?_, ?_⟩
        · rw [← h1]
          rfl
        · rw [← h2]

/-- Concrete state for witnesses: context initialized, one descriptor
(pointer to 32-bit int, address space 0), allocator at 0, empty registry. -/
def stateA : CompilerState :=
  CompilerState.mk true [LLVMType.pointer (LLVMType.int 32) 0] 0 []

/-- The result of running the helper on handle 0 in `stateA`. -/
def resultA : MIFResult :=
  MIFResult.mk (identityFnFor (LLVMType.int 32))
    (shadowModuleFor (LLVMType.int 32) 0)

/-- The post-state of that run. -/
def stateA1 : CompilerState :=
  CompilerState.mk true [LLVMType.pointer (LLVMType.int 32) 0] 1 []

/-- The result of a second run on handle 0, starting from `stateA1`. -/
def resultA2 : MIFResult :=
  MIFResult.mk (identityFnFor (LLVMType.int 32))
    (shadowModuleFor (LLVMType.int 32) 1)

/-- The post-state of the second run. -/
def stateA2 : CompilerState :=
  CompilerState.mk true [LLVMType.pointer (LLVMType.int 32) 0] 2 []

theorem runA : MakeIdentityFunction (some 0) stateA = some (resultA, stateA1) :=
  rfl

theorem runA2 :
    MakeIdentityFunction (some 0) stateA1 = some (resultA2, stateA2) :=
  rfl

/-- Concrete state with two descriptors over the same pointee, one of them
already in the Tracked address space. -/
def stateB : CompilerState :=
  CompilerState.mk true
    [LLVMType.pointer (LLVMType.int 32) 0,
      LLVMType.pointer (LLVMType.int 32) AddressSpace.Tracked] 0 []

/-- The result of running the helper on either handle of `stateB`. -/
def resultB : MIFResult :=
  MIFResult.mk (identityFnFor (LLVMType.int 32))
    (shadowModuleFor (LLVMType.int 32) 0)

/-- The post-state of a run from `stateB`. -/
def stateB1 : CompilerState :=
  CompilerState.mk true
    [LLVMType.pointer (LLVMType.int 32) 0,
      LLVMType.pointer (LLVMType.int 32) AddressSpace.Tracked] 1 []

theorem runB0 : MakeIdentityFunction (some 0) stateB = some (resultB, stateB1) :=
  rfl

theorem runB1 : MakeIdentityFunction (some 1) stateB = some (resultB, stateB1) :=
  rfl

/-- C1: every successful call returns a function with exactly one basic block,
named "top", holding exactly one instruction: a return whose operand is the
function's first parameter (argument 0), unmodified. -/
theorem identity_body_single_ret (h : Nat) (s : CompilerState) (r : MIFResult)
    (s' : CompilerState)
    (hrun : MakeIdentityFunction (some h) s = some (r, s')) :
    r.retFn.blocks =
      [BasicBlock.mk "top" [Instruction.ret (Value.argument 0)]] := by
  obtain ⟨T, a, -, -, hr, -⟩ := makeIdentity_eq_some h s r s' hrun
  rw [hr]
  rfl

theorem identity_body_single_ret_witness :
    resultA.retFn.blocks =
      [BasicBlock.mk "top" [Instruction.ret (Value.argument 0)]] :=
  identity_body_single_ret 0 stateA resultA stateA1 runA

/-- C2: for a descriptor with pointee type `T`, the returned function has
exactly one parameter, its parameter type is pointer-to-`T` in the Tracked
address space, and its return type equals its parameter type. -/
theorem identity_signature (h : Nat) (s : CompilerState) (r : MIFResult)
    (s' : CompilerState) (T : LLVMType) (a : Nat)
    (hty : s.typeHeap[h]? = some (LLVMType.pointer T a))
    (hrun : MakeIdentityFunction (some h) s = some (r, s')) :
    r.retFn.fnType.paramTypes.length = 1 ∧
      r.retFn.fnType.paramTypes = [pointerTypeGet T AddressSpace.Tracked] ∧
      r.retFn.fnType.retType = pointerTypeGet T AddressSpace.Tracked := by
  obtain ⟨T2, a2, hty2, -, hr, -⟩ := makeIdentity_eq_some h s r s' hrun
  rw [hty] at hty2
  injection hty2 with heq
  injection heq with hT ha
  subst hT
  rw [hr]
  exact ⟨rfl, rfl, rfl⟩

theorem identity_signature_witness :
    resultA.retFn.fnType.paramTypes.length = 1 ∧
      resultA.retFn.fnType.paramTypes =
        [pointerTypeGet (LLVMType.int 32) AddressSpace.Tracked] ∧
      resultA.retFn.fnType.retType =
        pointerTypeGet (LLVMType.int 32) AddressSpace.Tracked :=
  identity_signature 0 stateA resultA stateA1 (LLVMType.int 32) 0 rfl runA

/-- C3: the returned function is named "identity", has external linkage, and is
the sole content of the module the call itself allocates (the module carrying
the allocator's fresh identity). -/
theorem identity_name_linkage_owner (h : Nat) (s : CompilerState)
    (r : MIFResult) (s' : CompilerState)
    (hrun : MakeIdentityFunction (some h) s = some (r, s')) :
    r.retFn.name = "identity" ∧
      r.retFn.linkage = Linkage.externalLinkage ∧
      r.shadowModule.functions = [r.retFn] ∧
      r.shadowModule.moduleId = s.nextModuleId := by
  obtain ⟨T, a, -, -, hr, -⟩ := makeIdentity_eq_some h s r s' hrun
  rw [hr]
  exact ⟨rfl, rfl, rfl, rfl⟩

theorem identity_name_linkage_owner_witness :
    resultA.retFn.name = "identity" ∧
      resultA.retFn.linkage = Linkage.externalLinkage ∧
      resultA.shadowModule.functions = [resultA.retFn] ∧
      resultA.shadowModule.moduleId = stateA.nextModuleId :=
  identity_name_linkage_owner 0 stateA resultA stateA1 runA

/-- C4: every successful call allocates a fresh module (carrying the
allocator's current identity, and advancing the allocator so no later call can
reuse it), leaves the global module registry, the context flag and the
descriptor heap untouched, and any immediately following call yields a module
with a different identity. -/
theorem fresh_module_no_registry (AnyTy : Option Nat) (s : CompilerState)
    (r : MIFResult) (s' : CompilerState)
    (hrun : MakeIdentityFunction AnyTy s = some (r, s')) :
    r.shadowModule.moduleId = s.nextModuleId ∧
      s'.nextModuleId = s.nextModuleId + 1 ∧
      s'.moduleRegistry = s.moduleRegistry ∧
      s'.ctxInitialized = s.ctxInitialized ∧
      s'.typeHeap = s.typeHeap ∧
      ∀ AnyTy2 r2 s'', MakeIdentityFunction AnyTy2 s' = some (r2, s'') →
        r2.shadowModule.moduleId ≠ r.shadowModule.moduleId := by
  cases AnyTy with
  | none => simp [MakeIdentityFunction] at hrun
  | some h =>
    obtain ⟨T, a, -, -, hr, hs⟩ := makeIdentity_eq_some h s r s' hrun
    refine ⟨by rw [hr]; rfl, by rw [hs], by rw [hs], by rw [hs], by rw [hs], ?_⟩
    intro AnyTy2 r2 s'' hrun2
    cases AnyTy2 with
    | none => simp [MakeIdentityFunction] at hrun2
    | some h2 =>
      obtain ⟨T2, a2, -, -, hr2, -⟩ := makeIdentity_eq_some h2 s' r2 s'' hrun2
      rw [hr, hr2, hs]
      simp [shadowModuleFor]

theorem fresh_module_no_registry_witness :
    resultA.shadowModule.moduleId = stateA.nextModuleId ∧
      stateA1.nextModuleId = stateA.nextModuleId + 1 ∧
      stateA1.moduleRegistry = stateA.moduleRegistry ∧
      stateA1.ctxInitialized = stateA.ctxInitialized ∧
      stateA1.typeHeap = stateA.typeHeap ∧
      ∀ AnyTy2 r2 s'', MakeIdentityFunction AnyTy2 stateA1 = some (r2, s'') →
        r2.shadowModule.moduleId ≠ resultA.shadowModule.moduleId :=
  fresh_module_no_registry (some 0) stateA resultA stateA1 runA

/-- C5: two successive calls on descriptors holding the same type yield
structurally equal function objects (same name, linkage, signature and body)
living in two distinct modules. -/
theorem two_calls_equal_but_independent (h1 h2 : Nat)
    (s s1 s2 : CompilerState) (r1 r2 : MIFResult) (ty : LLVMType)
    (hty1 : s.typeHeap[h1]? = some ty)
    (hty2 : s1.typeHeap[h2]? = some ty)
    (hrun1 : MakeIdentityFunction (some h1) s = some (r1, s1))
    (hrun2 : MakeIdentityFunction (some h2) s1 = some (r2, s2)) :
    r1.retFn = r2.retFn ∧
      r1.shadowModule.moduleId ≠ r2.shadowModule.moduleId := by
  obtain ⟨T, a, htyA, -, hr1, hs1⟩ := makeIdentity_eq_some h1 s r1 s1 hrun1
  obtain ⟨T2, a2, htyB, -, hr2, -⟩ := makeIdentity_eq_some h2 s1 r2 s2 hrun2
  rw [hty1] at htyA
  rw [hty2] at htyB
  rw [htyA] at htyB
  injection htyB with heq
  injection heq with hT ha
  subst hT
  rw [hr1, hr2, hs1]
  simp [shadowModuleFor]

theorem two_calls_equal_but_independent_witness :
    resultA.retFn = resultA2.retFn ∧
      resultA.shadowModule.moduleId ≠ resultA2.shadowModule.moduleId :=
  two_calls_equal_but_independent 0 0 stateA stateA1 stateA2 resultA resultA2
    (LLVMType.pointer (LLVMType.int 32) 0) rfl rfl runA runA2

/-- C6: the call never mutates the caller-owned descriptor heap: after any
successful run the heap of type descriptors is exactly what it was, so the
input handle still dereferences to the same descriptor. -/
theorem descriptor_not_mutated (AnyTy : Option Nat) (s : CompilerState)
    (r : MIFResult) (s' : CompilerState)
    (hrun : MakeIdentityFunction AnyTy s = some (r, s')) :
    s'.typeHeap = s.typeHeap ∧
      ∀ h : Nat, s'.typeHeap[h]? = s.typeHeap[h]? := by
  cases AnyTy with
  | none => simp [MakeIdentityFunction] at hrun
  | some h =>
    obtain ⟨T, a, -, -, -, hs⟩ := makeIdentity_eq_some h s r s' hrun
    rw [hs]
    exact ⟨rfl, fun _ => rfl⟩

theorem descriptor_not_mutated_witness :
    stateA1.typeHeap = stateA.typeHeap ∧
      ∀ h : Nat, stateA1.typeHeap[h]? = stateA.typeHeap[h]? :=
  descriptor_not_mutated (some 0) stateA resultA stateA1 runA

/-- C7: no validation is performed and no recoverable error value exists: a
null descriptor or an uninitialized context makes the run fatal or undefined
(modelled by `none`), while under the precondition (non-null pointer-type
descriptor, initialized context) the call always succeeds — no error branch is
reachable. -/
theorem no_validation_fail_fast (h : Nat) (s : CompilerState) (T : LLVMType)
    (a : Nat) (hctx : s.ctxInitialized = true)
    (hty : s.typeHeap[h]? = some (LLVMType.pointer T a)) :
    (MakeIdentityFunction (some h) s).isSome = true ∧
      (∀ s2 : CompilerState, MakeIdentityFunction none s2 = none) ∧
      (∀ (AnyTy : Option Nat) (s2 : CompilerState),
        s2.ctxInitialized = false → MakeIdentityFunction AnyTy s2 = none) := by
  refine ⟨?_, fun _ => rfl, ?_⟩
  · unfold MakeIdentityFunction
    simp [hty, getElementType, hctx]
  · intro AnyTy s2 hctx2
    cases AnyTy with
    | none => rfl
    | some h2 =>
      unfold MakeIdentityFunction
      cases hty2 : s2.typeHeap[h2]? with
      | none => simp [hty2]
      | some ty2 =>
        cases ty2 with
        | int b => simp [hty2, getElementType]
        | pointer T2 a2 => simp [hty2, getElementType, hctx2]

theorem no_validation_fail_fast_witness :
    (MakeIdentityFunction (some 0) stateA).isSome = true :=
  (no_validation_fail_fast 0 stateA (LLVMType.int 32) 0 rfl rfl).1

/-- C8: the module allocated by every successful call is named exactly
"shadow". -/
theorem module_named_shadow (h : Nat) (s : CompilerState) (r : MIFResult)
    (s' : CompilerState)
    (hrun : MakeIdentityFunction (some h) s = some (r, s')) :
    r.shadowModule.name = "shadow" := by
  obtain ⟨T, a, -, -, hr, -⟩ := makeIdentity_eq_some h s r s' hrun
  rw [hr]
  rfl

theorem module_named_shadow_witness : resultA.shadowModule.name = "shadow" :=
  module_named_shadow 0 stateA resultA stateA1 runA

/-- C9: the function type built by every successful call is non-variadic: its
varargs flag is `false`. -/
theorem fnType_not_vararg (h : Nat) (s : CompilerState) (r : MIFResult)
    (s' : CompilerState)
    (hrun : MakeIdentityFunction (some h) s = some (r, s')) :
    r.retFn.fnType.isVarArg = false := by
  obtain ⟨T, a, -, -, hr, -⟩ := makeIdentity_eq_some h s r s' hrun
  rw [hr]
  rfl

theorem fnType_not_vararg_witness : resultA.retFn.fnType.isVarArg = false :=
  fnType_not_vararg 0 stateA resultA stateA1 runA

/-- C10: the produced signature depends only on the descriptor's pointee type:
two descriptors with the same pointee but arbitrary (possibly different, even
already Tracked) address spaces yield functions with identical types. -/
theorem signature_ignores_input_addrspace (h1 h2 : Nat) (s : CompilerState)
    (T : LLVMType) (a1 a2 : Nat) (r1 r2 : MIFResult) (s1 s2 : CompilerState)
    (hty1 : s.typeHeap[h1]? = some (LLVMType.pointer T a1))
    (hty2 : s.typeHeap[h2]? = some (LLVMType.pointer T a2))
    (hrun1 : MakeIdentityFunction (some h1) s = some (r1, s1))
    (hrun2 : MakeIdentityFunction (some h2) s = some (r2, s2)) :
    r1.retFn.fnType = r2.retFn.fnType := by
  obtain ⟨TA, aA, htyA, -, hr1, -⟩ := makeIdentity_eq_some h1 s r1 s1 hrun1
  obtain ⟨TB, aB, htyB, -, hr2, -⟩ := makeIdentity_eq_some h2 s r2 s2 hrun2
  rw [hty1] at htyA
  rw [hty2] at htyB
  injection htyA with heqA
  injection heqA with hTA haA
  injection htyB with heqB
  injection heqB with hTB haB
  subst hTA
  subst hTB
  rw [hr1, hr2]

theorem signature_ignores_input_addrspace_witness :
    resultB.retFn.fnType = resultB.retFn.fnType :=
  signature_ignores_input_addrspace 0 1 stateB (LLVMType.int 32) 0
    AddressSpace.Tracked resultB resultB stateB1 stateB1 rfl rfl runB0 runB1

end LLVMCallTest
